import Mathlib

set_option autoImplicit false

/-!
Shallow embedding of `src/examples/python/azure_management.py`.

The script has three parts, each embedded below as an executable Lean
definition that mirrors the Python line by line:

* `setup_logging` — the logger factory (lines 22-43 of the source).
  The process-wide logging registry is passed explicitly as a
  `LoggingRegistry` value; `getattr(logging, log_level.upper())` becomes a
  lookup in `loggingLevelAttr` after `pyUpper`, and an unrecognized name
  yields a `ConfigError` (Python's `AttributeError`).
* `AzureResourceManager.create_resource_group` / `list_resource_groups`
  (lines 66-133).  The Azure SDK is the external collaborator: the single
  provider response of an invocation is a parameter of type `Except Exc _`,
  where `Exc` is the Python exception taxonomy relevant to the script.
  Each operation returns an `OpOutcome` recording its return value (or the
  exception that escaped it), the log calls it made, and the number of
  provider calls it issued.
* `main` (lines 136-228) — CLI dispatch.  Parsed arguments are an `Args`
  value (argparse has already enforced the `choices` lists); the behavior
  of the external world while the process runs is a `World` value.  `main`
  returns a `MainOutcome`: the process result (exit code, or an uncaught
  configuration error from the logger factory), the log calls, and the
  facade invocations that happened.
-/

namespace AzureManagement

/-- Python exception taxonomy used by the script: `KeyboardInterrupt`
derives only from `BaseException`, while `AzureError` and every other
error the provider call can raise derive from `Exception`. -/
inductive Exc where
  | keyboardInterrupt
  | azureError (msg : String)
  | otherError (msg : String)
deriving DecidableEq, Repr

/-- Whether the value is an instance of Python's `Exception` class, i.e.
caught by an `except Exception` clause.  `KeyboardInterrupt` is not. -/
def Exc.isException : Exc → Bool
  | .keyboardInterrupt => false
  | .azureError _ => true
  | .otherError _ => true

/-- Severity of a log call made by the script (it only uses `.info` and
`.error`). -/
inductive LogSeverity where
  | info
  | error
deriving DecidableEq, Repr

/-- One call to `logger.info` / `logger.error`. -/
structure LogEntry where
  severity : LogSeverity
  text : String
deriving DecidableEq, Repr

/-- Model of Python's `str.upper()` on the ASCII strings the script deals
with: uppercase each character. -/
def pyUpper (s : String) : String := ⟨s.data.map Char.toUpper⟩

/-- Model of `getattr(logging, name)` restricted to the severity constants
of the `logging` module's level registry; any other name raises
`AttributeError`, modelled as `none`. -/
def loggingLevelAttr : String → Option Nat
  | "CRITICAL" => some 50
  | "FATAL" => some 50
  | "ERROR" => some 40
  | "WARN" => some 30
  | "WARNING" => some 30
  | "INFO" => some 20
  | "DEBUG" => some 10
  | "NOTSET" => some 0
  | _ => none

/-- A `logging.StreamHandler` with its formatter: stream 1 is `sys.stdout`. -/
structure Handler where
  stream : Nat
  fmt : String
deriving DecidableEq, Repr

/-- The logger object returned by the factory. -/
structure Logger where
  name : String
  level : Nat
deriving DecidableEq, Repr

/-- State of the process-wide logging registry for the script's named
logger (`logging.getLogger(__name__)` always returns this one logger). -/
structure LoggingRegistry where
  loggerLevel : Nat
  handlers : List Handler
deriving DecidableEq, Repr

/-- Registry state at interpreter start: level `NOTSET`, no handlers. -/
def initialRegistry : LoggingRegistry := { loggerLevel := 0, handlers := [] }

/-- Configuration failure of the logger factory (`AttributeError` raised by
`getattr(logging, log_level.upper())`). -/
inductive ConfigError where
  | attributeError (attrName : String)
deriving DecidableEq, Repr

/-- The formatter string installed on the console handler. -/
def logFormat : String := "%(asctime)s - %(name)s - %(levelname)s - %(message)s"

/-- Embedding of `setup_logging` (source lines 22-43): resolve the severity
name via `getattr` after uppercasing, set the logger level, and append a
fresh stdout handler to the named logger's handler list. -/
def setup_logging (log_level : String) (reg : LoggingRegistry) :
    Except ConfigError (Logger × LoggingRegistry) :=
  match loggingLevelAttr (pyUpper log_level) with
  | none => .error (.attributeError (pyUpper log_level))
  | some lvl =>
    let handler : Handler := { stream := 1, fmt := logFormat }
    let reg' : LoggingRegistry :=
      { loggerLevel := lvl, handlers := reg.handlers ++ [handler] }
    .ok ({ name := "__main__", level := lvl }, reg')

/-- Run `setup_logging` once per level name in the list, threading the
process-wide registry, stopping at the first configuration error. -/
def setupSeq : List String → LoggingRegistry → Except ConfigError LoggingRegistry
  | [], reg => .ok reg
  | lvl :: rest, reg =>
    match setup_logging lvl reg with
    | .error e => .error e
    | .ok (_, reg') => setupSeq rest reg'

/-- Tag mappings, in insertion order as in a Python dict literal. -/
abbrev TagMap := List (String × String)

/-- The provider's response object for `create_or_update` (only its `name`
field is read by the script). -/
structure CreatedGroup where
  name : String
deriving DecidableEq, Repr

/-- One resource group as yielded by the provider's `list()` iterator;
`tags` is `none` when the group carries no tags (`rg.tags` is `None`). -/
structure ProviderGroup where
  name : String
  location : String
  tags : Option TagMap
deriving DecidableEq, Repr

/-- The record dict built by `list_resource_groups` for each group. -/
structure RGRecord where
  name : String
  location : String
  tags : TagMap
deriving DecidableEq, Repr

/-- Observable outcome of one facade operation: its Python return value
(or the exception that escaped it), the log calls it made, how often it
called the provider, and the `(name, location, tags)` parameters of each
`create_or_update` request it sent. -/
structure OpOutcome (α : Type) where
  result : Except Exc α
  logs : List LogEntry
  providerCalls : Nat
  sentParams : List (String × String × TagMap)
deriving Repr

/-- Embedding of `AzureResourceManager.create_resource_group` (source
lines 66-105).  `providerResp` is what the single
`resource_groups.create_or_update` call comes back with.  `except
AzureError` and `except Exception` convert provider-reported and other
`Exception`-class failures to `False`; `KeyboardInterrupt` matches neither
clause and escapes. -/
def create_resource_group (resource_group_name : String) (location : String)
    (tags : Option TagMap) (providerResp : Except Exc CreatedGroup) :
    OpOutcome Bool :=
  let entryLog : LogEntry := ⟨.info, s!"Creating resource group: {resource_group_name}"⟩
  let rg_params : String × TagMap := (location, tags.getD [])
  let sent : List (String × String × TagMap) :=
    [(resource_group_name, rg_params.1, rg_params.2)]
  match providerResp with
  | .ok result =>
    let rn := result.name
    { result := .ok true
      logs := [entryLog, ⟨.info, s!"Resource group created successfully: {rn}"⟩]
      providerCalls := 1
      sentParams := sent }
  | .error (.azureError m) =>
    { result := .ok false
      logs := [entryLog, ⟨.error, s!"Azure error creating resource group: {m}"⟩]
      providerCalls := 1
      sentParams := sent }
  | .error (.otherError m) =>
    { result := .ok false
      logs := [entryLog, ⟨.error, s!"Unexpected error: {m}"⟩]
      providerCalls := 1
      sentParams := sent }
  | .error .keyboardInterrupt =>
    { result := .error .keyboardInterrupt
      logs := [entryLog]
      providerCalls := 1
      sentParams := sent }

/-- Embedding of `AzureResourceManager.list_resource_groups` (source lines
107-133).  `providerResp` is the full sequence the provider's lazy
iterator yields, or the exception it raises; the `for` loop appending one
record dict per group is the fold. -/
def list_resource_groups (providerResp : Except Exc (List ProviderGroup)) :
    OpOutcome (Option (List RGRecord)) :=
  let entryLog : LogEntry := ⟨.info, "Listing resource groups"⟩
  match providerResp with
  | .ok rgs =>
    let resource_groups := rgs.foldl
      (fun acc rg =>
        acc ++ [({ name := rg.name, location := rg.location,
                   tags := rg.tags.getD [] } : RGRecord)]) []
    let n := resource_groups.length
    { result := .ok (some resource_groups)
      logs := [entryLog, ⟨.info, s!"Found {n} resource groups"⟩]
      providerCalls := 1
      sentParams := [] }
  | .error (.azureError m) =>
    { result := .ok none
      logs := [entryLog, ⟨.error, s!"Azure error listing resource groups: {m}"⟩]
      providerCalls := 1
      sentParams := [] }
  | .error (.otherError m) =>
    { result := .ok none
      logs := [entryLog, ⟨.error, s!"Unexpected error: {m}"⟩]
      providerCalls := 1
      sentParams := [] }
  | .error .keyboardInterrupt =>
    { result := .error .keyboardInterrupt
      logs := [entryLog]
      providerCalls := 1
      sentParams := [] }

/-- The `--action` choices enforced by argparse. -/
inductive Action where
  | create
  | list
deriving DecidableEq, Repr

/-- Parsed CLI arguments, after argparse has accepted the invocation
(source lines 140-176).  `resource_group` is `none` when the flag was not
given; the other flags have argparse defaults. -/
structure Args where
  action : Action
  subscription_id : String
  resource_group : Option String
  location : String
  environment : String
  log_level : String
deriving DecidableEq, Repr

/-- Argparse default for `--location`. -/
def locationDefault : String := "West Europe"

/-- Argparse `choices` for `--environment`. -/
def environmentChoices : List String := ["dev", "staging", "prod"]

/-- Argparse `choices` for `--log-level`. -/
def logLevelChoices : List String := ["DEBUG", "INFO", "WARNING", "ERROR"]

/-- Python truthiness of `args.resource_group`: `None` and the empty
string are falsy. -/
def pyTruthy : Option String → Bool
  | none => false
  | some s => !(s == "")

/-- Behavior of the external world during one process run: whether the
`AzureResourceManager` constructor raises (credential / client
construction), and the provider's response to the (at most one) create or
list call. -/
structure World where
  armInit : Option Exc
  createResp : Except Exc CreatedGroup
  listResp : Except Exc (List ProviderGroup)
deriving Repr

/-- One invocation of the facade's create operation by `main`, with the
arguments it was passed. -/
structure CreateCall where
  resource_group_name : String
  location : String
  tags : TagMap
deriving DecidableEq, Repr

/-- How the process ends: `sys.exit(code)`, or an exception that no
handler catches (only the logger factory's configuration error can occur
outside the `try` block). -/
inductive MainResult where
  | exitCode (code : Nat)
  | uncaughtError (e : ConfigError)
deriving DecidableEq, Repr

/-- Observable outcome of one process run. -/
structure MainOutcome where
  result : MainResult
  logs : List LogEntry
  createCalls : List CreateCall
  listCalls : Nat
deriving Repr

/-- Body of `main`'s `try` block (source lines 181-221): construct the
facade, dispatch on the action, and either `sys.exit` (the `.ok` exit
code — `SystemExit` passes through both `except` clauses) or raise
(`.error`).  Also records the facade invocations made. -/
def mainBody (args : Args) (w : World) :
    Except Exc Nat × List LogEntry × List CreateCall × Nat :=
  match w.armInit with
  | some e => (.error e, [], [], 0)
  | none =>
    match args.action with
    | .create =>
      if pyTruthy args.resource_group = false then
        (.ok 1, [⟨.error, "Resource group name is required for create action"⟩], [], 0)
      else
        let rg := args.resource_group.getD ""
        let tags : TagMap :=
          [("Environment", args.environment),
           ("ManagedBy", "DevOps-Automation"),
           ("Project", "DevOps-Tools")]
        let op := create_resource_group rg args.location (some tags) w.createResp
        let call : CreateCall := ⟨rg, args.location, tags⟩
        match op.result with
        | .ok true =>
          (.ok 0, op.logs ++ [⟨.info, "Resource group creation completed successfully"⟩],
           [call], 0)
        | .ok false =>
          (.ok 1, op.logs ++ [⟨.error, "Resource group creation failed"⟩], [call], 0)
        | .error e => (.error e, op.logs, [call], 0)
    | .list =>
      let op := list_resource_groups w.listResp
      match op.result with
      | .ok (some resource_groups) =>
        (.ok 0,
         op.logs ++ [⟨.info, "Resource Groups:"⟩] ++
           resource_groups.map (fun rg => ⟨.info, s!"  - {rg.name} ({rg.location})"⟩),
         [], 1)
      | .ok none =>
        (.ok 1, op.logs ++ [⟨.error, "Failed to list resource groups"⟩], [], 1)
      | .error e => (.error e, op.logs, [], 1)

/-- Embedding of `main` (source lines 136-228).  `setup_logging` runs
before the `try` block, so its configuration error is uncaught; inside the
block, `except KeyboardInterrupt` maps interruption to exit 130 and
`except Exception` logs anything else and exits 1. -/
def main (args : Args) (w : World) : MainOutcome :=
  match setup_logging args.log_level initialRegistry with
  | .error ce => { result := .uncaughtError ce, logs := [], createCalls := [], listCalls := 0 }
  | .ok _ =>
    let (r, logs, cc, lc) := mainBody args w
    match r with
    | .ok code => { result := .exitCode code, logs := logs, createCalls := cc, listCalls := lc }
    | .error .keyboardInterrupt =>
      { result := .exitCode 130
        logs := logs ++ [⟨.info, "Operation cancelled by user"⟩]
        createCalls := cc, listCalls := lc }
    | .error (.azureError m) =>
      { result := .exitCode 1
        logs := logs ++ [⟨.error, s!"Unexpected error: {m}"⟩]
        createCalls := cc, listCalls := lc }
    | .error (.otherError m) =>
      { result := .exitCode 1
        logs := logs ++ [⟨.error, s!"Unexpected error: {m}"⟩]
        createCalls := cc, listCalls := lc }

/-! ### Helper lemmas -/

/-- Uppercasing a character is idempotent. -/
theorem charToUpper_idem (c : Char) : c.toUpper.toUpper = c.toUpper := by
  by_cases h : c.toNat ≥ 97 ∧ c.toNat ≤ 122
  · have h1 : c.toUpper = Char.ofNat (c.toNat - 32) := by
      unfold Char.toUpper; simp [h]
    have hv : Nat.isValidChar (c.toNat - 32) := Or.inl (by omega)
    have ht : (Char.ofNat (c.toNat - 32)).toNat = c.toNat - 32 := by
      simp [Char.ofNat, hv]; rfl
    have h2 : ¬((Char.ofNat (c.toNat - 32)).toNat ≥ 97 ∧
        (Char.ofNat (c.toNat - 32)).toNat ≤ 122) := by
      rw [ht]; omega
    rw [h1]
    unfold Char.toUpper
    simp [h2]
  · have h1 : c.toUpper = c := by unfold Char.toUpper; simp [h]
    rw [h1, h1]

/-- Uppercasing a string is idempotent. -/
theorem pyUpper_idem (s : String) : pyUpper (pyUpper s) = pyUpper s := by
  unfold pyUpper
  congr 1
  rw [List.map_map]
  exact List.map_congr_left (fun c _ => charToUpper_idem c)

/-- Appending one element per list entry, starting from `acc`, is `acc`
followed by the mapped list. -/
theorem foldl_append_eq_map {α β : Type} (f : α → β) (l : List α) (acc : List β) :
    l.foldl (fun acc x => acc ++ [f x]) acc = acc ++ l.map f := by
  induction l generalizing acc with
  | nil => simp
  | cons x xs ih => simp [ih]

/-- Every value of the argparse `--log-level` choices list resolves to a
severity, so `setup_logging` succeeds on it. -/
theorem setup_ok_of_mem (lvl : String) (h : lvl ∈ logLevelChoices)
    (reg : LoggingRegistry) : ∃ p, setup_logging lvl reg = .ok p := by
  simp only [logLevelChoices, List.mem_cons, List.not_mem_nil, or_false] at h
  rcases h with h | h | h | h <;> subst h <;> exact ⟨_, rfl⟩

/-! ### Claims about the logger factory -/

/-- C10: the logger factory uppercases the severity name before the
lookup, so every input string configures the logger exactly as its
uppercase form does. -/
theorem setup_logging_case_insensitive (s : String) (reg : LoggingRegistry) :
    setup_logging s reg = setup_logging (pyUpper s) reg := by
  unfold setup_logging
  rw [pyUpper_idem]

/-- C9: the logger factory is not idempotent: each successful call appends
one more output handler to the named logger, and after a sequence of `n`
calls with valid levels the handler list has grown by exactly `n`. -/
theorem setup_logging_accumulates_handlers :
    (∀ (lvl : String) (reg : LoggingRegistry) (lg : Logger) (reg2 : LoggingRegistry),
        setup_logging lvl reg = .ok (lg, reg2) →
        reg2.handlers.length = reg.handlers.length + 1) ∧
    (∀ (lvls : List String) (reg : LoggingRegistry),
        (∀ l ∈ lvls, (loggingLevelAttr (pyUpper l)).isSome = true) →
        ∃ reg2, setupSeq lvls reg = .ok reg2 ∧
          reg2.handlers.length = reg.handlers.length + lvls.length) := by
  constructor
  · intro lvl reg lg reg2 h
    unfold setup_logging at h
    cases hattr : loggingLevelAttr (pyUpper lvl) with
    | none => rw [hattr] at h; exact absurd h (by simp)
    | some v =>
      rw [hattr] at h
      simp only [Except.ok.injEq, Prod.mk.injEq] at h
      rw [← h.2]
      simp
  · intro lvls
    induction lvls with
    | nil => intro reg _; exact ⟨reg, rfl, by simp⟩
    | cons l rest ih =>
      intro reg h
      have hl : (loggingLevelAttr (pyUpper l)).isSome = true :=
        h l (List.mem_cons_self l rest)
      cases hattr : loggingLevelAttr (pyUpper l) with
      | none => rw [hattr] at hl; exact absurd hl (by simp)
      | some v =>
        have hs : setup_logging l reg =
            .ok ({ name := "__main__", level := v },
                 { loggerLevel := v, handlers := reg.handlers ++ [⟨1, logFormat⟩] }) := by
          unfold setup_logging
          rw [hattr]
        obtain ⟨reg2, h2, hlen⟩ :=
          ih { loggerLevel := v, handlers := reg.handlers ++ [⟨1, logFormat⟩] }
            (fun x hx => h x (List.mem_cons_of_mem l hx))
        refine ⟨reg2, ?_, ?_⟩
        · unfold setupSeq
          rw [hs]
          exact h2
        · rw [hlen]
          simp
          omega

/-- C8: a severity name that the logging level registry does not recognize
makes the logger factory fail with a configuration error, and in `main`
this failure happens before the facade is ever used: no create call, no
list call. -/
theorem setup_logging_invalid_level (s : String) (reg : LoggingRegistry)
    (h : loggingLevelAttr (pyUpper s) = none) :
    setup_logging s reg = .error (.attributeError (pyUpper s)) ∧
    ∀ (args : Args) (w : World), args.log_level = s →
      (∃ ce, (main args w).result = .uncaughtError ce) ∧
      (main args w).createCalls = [] ∧ (main args w).listCalls = 0 := by
  have hfail : ∀ r : LoggingRegistry,
      setup_logging s r = .error (.attributeError (pyUpper s)) := by
    intro r
    unfold setup_logging
    rw [h]
  refine ⟨hfail reg, ?_⟩
  intro args w ha
  have : main args w =
      { result := .uncaughtError (.attributeError (pyUpper s)),
        logs := [], createCalls := [], listCalls := 0 } := by
    unfold main
    rw [ha, hfail initialRegistry]
  rw [this]
  exact ⟨⟨_, rfl⟩, rfl, rfl⟩

/-- Witness for C9 at a concrete call sequence. -/
theorem setup_logging_accumulates_handlers_witness :
    ∃ reg2, setupSeq ["INFO", "info", "DEBUG"] initialRegistry = .ok reg2 ∧
      reg2.handlers.length = initialRegistry.handlers.length + 3 :=
  setup_logging_accumulates_handlers.2 ["INFO", "info", "DEBUG"] initialRegistry
    (by decide)

/-- Witness for C8 at a concrete unrecognized severity name. -/
theorem setup_logging_invalid_level_witness :
    setup_logging "verbose" initialRegistry =
      .error (.attributeError (pyUpper "verbose")) ∧
    (∃ ce, (main ⟨.list, "sub", none, "West Europe", "dev", "verbose"⟩
        ⟨none, .ok ⟨"rg1"⟩, .ok []⟩).result = .uncaughtError ce) ∧
    (main ⟨.list, "sub", none, "West Europe", "dev", "verbose"⟩
        ⟨none, .ok ⟨"rg1"⟩, .ok []⟩).createCalls = [] ∧
    (main ⟨.list, "sub", none, "West Europe", "dev", "verbose"⟩
        ⟨none, .ok ⟨"rg1"⟩, .ok []⟩).listCalls = 0 := by
  have h := setup_logging_invalid_level "verbose" initialRegistry (by rfl)
  exact ⟨h.1, h.2 _ ⟨none, .ok ⟨"rg1"⟩, .ok []⟩ rfl⟩

/-! ### Claims about the resource operations facade -/

/-- C2: every `Exception`-class failure of the provider call — the
provider-reported `AzureError` as well as any other error — is caught
inside `create_resource_group`, logged at error severity, and turned into
the return value `False`; and whatever the provider call comes back with,
it is attempted exactly once. -/
theorem create_resource_group_error_handling (rgName loc : String)
    (tags : Option TagMap) :
    (∀ e : Exc, e.isException = true →
      (create_resource_group rgName loc tags (.error e)).result = .ok false ∧
      ∃ m ∈ (create_resource_group rgName loc tags (.error e)).logs,
        m.severity = .error) ∧
    (∀ resp : Except Exc CreatedGroup,
      (create_resource_group rgName loc tags resp).providerCalls = 1) := by
  constructor
  · intro e he
    cases e with
    | keyboardInterrupt => exact absurd he (by simp [Exc.isException])
    | azureError m =>
      refine ⟨rfl, ⟨.error, s!"Azure error creating resource group: {m}"⟩, ?_, rfl⟩
      simp [create_resource_group]
    | otherError m =>
      refine ⟨rfl, ⟨.error, s!"Unexpected error: {m}"⟩, ?_, rfl⟩
      simp [create_resource_group]
  · intro resp
    rcases resp with e | g
    · cases e <;> rfl
    · rfl

/-- Witness for C2 at a concrete provider failure. -/
theorem create_resource_group_error_handling_witness :
    (create_resource_group "rg1" "West Europe" none
        (.error (.azureError "quota"))).result = .ok false ∧
    (create_resource_group "rg1" "West Europe" none
        (.error (.azureError "quota"))).providerCalls = 1 := by
  have h := create_resource_group_error_handling "rg1" "West Europe" none
  exact ⟨(h.1 (.azureError "quota") rfl).1, h.2 (.error (.azureError "quota"))⟩

/-- C6: a successful list returns exactly one record per provider-returned
group, in provider order, carrying each group's name, location, and its
tags or the empty mapping; an `Exception`-class failure (provider-reported
or otherwise) makes the operation return `None`. -/
theorem list_resource_groups_records :
    (∀ rgs : List ProviderGroup,
      (list_resource_groups (.ok rgs)).result =
        .ok (some (rgs.map (fun rg =>
          ({ name := rg.name, location := rg.location,
             tags := rg.tags.getD [] } : RGRecord))))) ∧
    (∀ e : Exc, e.isException = true →
      (list_resource_groups (.error e)).result = .ok none) := by
  constructor
  · intro rgs
    have hstep : (list_resource_groups (.ok rgs)).result =
        .ok (some (rgs.foldl
          (fun acc rg =>
            acc ++ [({ name := rg.name, location := rg.location,
                       tags := rg.tags.getD [] } : RGRecord)]) [])) := rfl
    rw [hstep, foldl_append_eq_map
      (fun rg : ProviderGroup =>
        ({ name := rg.name, location := rg.location,
           tags := rg.tags.getD [] } : RGRecord)) rgs []]
    rw [List.nil_append]
  · intro e he
    cases e with
    | keyboardInterrupt => exact absurd he (by simp [Exc.isException])
    | azureError m => rfl
    | otherError m => rfl

/-- Witness for C6 at a concrete provider response. -/
theorem list_resource_groups_records_witness :
    (list_resource_groups (.ok
        [⟨"rg1", "eastus", none⟩, ⟨"rg2", "westus", some [("team", "ops")]⟩])).result =
      .ok (some [⟨"rg1", "eastus", []⟩, ⟨"rg2", "westus", [("team", "ops")]⟩]) ∧
    (list_resource_groups (.error (.otherError "timeout"))).result = .ok none := by
  refine ⟨?_, list_resource_groups_records.2 (.otherError "timeout") rfl⟩
  rw [list_resource_groups_records.1]
  rfl

/-! ### Claims about the CLI dispatch -/

/-- C1: a create invocation that supplies a resource-group name calls the
facade's create operation exactly once, with the tag mapping holding
exactly the keys Environment (the given `--environment` value), ManagedBy
(`DevOps-Automation`) and Project (`DevOps-Tools`), and nothing else. -/
theorem main_create_tags_exact (args : Args) (w : World)
    (hact : args.action = .create)
    (hrg : pyTruthy args.resource_group = true)
    (hlvl : args.log_level ∈ logLevelChoices)
    (hinit : w.armInit = none) :
    (main args w).createCalls =
      [⟨args.resource_group.getD "", args.location,
        [("Environment", args.environment),
         ("ManagedBy", "DevOps-Automation"),
         ("Project", "DevOps-Tools")]⟩] := by
  obtain ⟨p, hp⟩ := setup_ok_of_mem _ hlvl initialRegistry
  unfold main mainBody
  rw [hp, hinit, hact]
  simp only [hrg]
  rcases hc : w.createResp with e | g
  · cases e <;> simp [create_resource_group]
  · simp [create_resource_group]

/-- Witness for C1 at a concrete invocation. -/
theorem main_create_tags_exact_witness :
    (main ⟨.create, "sub", some "rg1", "eastus", "prod", "INFO"⟩
        ⟨none, .ok ⟨"rg1"⟩, .ok []⟩).createCalls =
      [⟨"rg1", "eastus",
        [("Environment", "prod"),
         ("ManagedBy", "DevOps-Automation"),
         ("Project", "DevOps-Tools")]⟩] :=
  main_create_tags_exact ⟨.create, "sub", some "rg1", "eastus", "prod", "INFO"⟩
    ⟨none, .ok ⟨"rg1"⟩, .ok []⟩ rfl rfl (by decide) rfl

/-- C3: on a create invocation with a resource-group name, the process
exit status is 0 exactly when the facade's create operation returned
`True`, and 1 when it returned `False`. -/
theorem main_create_exit_status (args : Args) (w : World) (b : Bool)
    (hact : args.action = .create)
    (hrg : pyTruthy args.resource_group = true)
    (hlvl : args.log_level ∈ logLevelChoices)
    (hinit : w.armInit = none)
    (hres : (create_resource_group (args.resource_group.getD "") args.location
        (some [("Environment", args.environment),
               ("ManagedBy", "DevOps-Automation"),
               ("Project", "DevOps-Tools")]) w.createResp).result = .ok b) :
    (main args w).result = .exitCode (cond b 0 1) := by
  obtain ⟨p, hp⟩ := setup_ok_of_mem _ hlvl initialRegistry
  unfold main mainBody
  rw [hp, hinit, hact]
  simp only [hrg]
  rcases hc : w.createResp with e | g
  · rw [hc] at hres
    cases e with
    | keyboardInterrupt => simp [create_resource_group] at hres
    | azureError m =>
      have hb : b = false := by
        simpa [create_resource_group] using hres.symm
      subst hb
      simp [create_resource_group]
    | otherError m =>
      have hb : b = false := by
        simpa [create_resource_group] using hres.symm
      subst hb
      simp [create_resource_group]
  · rw [hc] at hres
    have hb : b = true := by
      simpa [create_resource_group] using hres.symm
    subst hb
    simp [create_resource_group]

/-- Witness for C3 at a concrete invocation whose create succeeds. -/
theorem main_create_exit_status_witness :
    (main ⟨.create, "sub", some "rg1", "West Europe", "dev", "DEBUG"⟩
        ⟨none, .ok ⟨"rg1"⟩, .ok []⟩).result = .exitCode (cond true 0 1) :=
  main_create_exit_status ⟨.create, "sub", some "rg1", "West Europe", "dev", "DEBUG"⟩
    ⟨none, .ok ⟨"rg1"⟩, .ok []⟩ true rfl rfl (by decide) rfl rfl

/-- C4: a create invocation without a resource-group name logs an error
and exits with status 1, and the facade's create operation is never
invoked. -/
theorem main_create_missing_group (args : Args) (w : World)
    (hact : args.action = .create)
    (hrg : pyTruthy args.resource_group = false)
    (hlvl : args.log_level ∈ logLevelChoices)
    (hinit : w.armInit = none) :
    (main args w).result = .exitCode 1 ∧
    (main args w).createCalls = [] ∧
    (⟨.error, "Resource group name is required for create action"⟩ : LogEntry) ∈
      (main args w).logs := by
  obtain ⟨p, hp⟩ := setup_ok_of_mem _ hlvl initialRegistry
  have hbody : mainBody args w =
      (.ok 1, [⟨.error, "Resource group name is required for create action"⟩], [], 0) := by
    unfold mainBody
    rw [hinit, hact]
    simp [hrg]
  have hmain : main args w =
      { result := .exitCode 1
        logs := [⟨.error, "Resource group name is required for create action"⟩]
        createCalls := [], listCalls := 0 } := by
    unfold main
    rw [hp, hbody]
  rw [hmain]
  exact ⟨rfl, rfl, List.mem_singleton.mpr rfl⟩

/-- Witness for C4 at a concrete invocation with the flag absent. -/
theorem main_create_missing_group_witness :
    (main ⟨.create, "sub", none, "West Europe", "dev", "INFO"⟩
        ⟨none, .ok ⟨"rg1"⟩, .ok []⟩).result = .exitCode 1 ∧
    (main ⟨.create, "sub", none, "West Europe", "dev", "INFO"⟩
        ⟨none, .ok ⟨"rg1"⟩, .ok []⟩).createCalls = [] ∧
    (⟨.error, "Resource group name is required for create action"⟩ : LogEntry) ∈
      (main ⟨.create, "sub", none, "West Europe", "dev", "INFO"⟩
        ⟨none, .ok ⟨"rg1"⟩, .ok []⟩).logs :=
  main_create_missing_group ⟨.create, "sub", none, "West Europe", "dev", "INFO"⟩
    ⟨none, .ok ⟨"rg1"⟩, .ok []⟩ rfl rfl (by decide) rfl

/-- C5: a list invocation exits with status 0 whenever the facade's list
operation returns a sequence — for the empty sequence no per-group line is
logged — and exits with status 1 after logging an error whenever the
operation returns `None`. -/
theorem main_list_exit_status (args : Args) (w : World)
    (hact : args.action = .list)
    (hlvl : args.log_level ∈ logLevelChoices)
    (hinit : w.armInit = none) :
    (∀ records, (list_resource_groups w.listResp).result = .ok (some records) →
      (main args w).result = .exitCode 0 ∧
      (records = [] → (main args w).logs =
        (list_resource_groups w.listResp).logs ++ [⟨.info, "Resource Groups:"⟩])) ∧
    ((list_resource_groups w.listResp).result = .ok none →
      (main args w).result = .exitCode 1 ∧
      ∃ m ∈ (main args w).logs, m.severity = .error) := by
  obtain ⟨p, hp⟩ := setup_ok_of_mem _ hlvl initialRegistry
  unfold main mainBody
  rw [hp, hinit, hact]
  rcases hc : w.listResp with e | rgs
  · cases e with
    | keyboardInterrupt =>
      constructor
      · intro records hres
        simp [list_resource_groups] at hres
      · intro hres
        simp [list_resource_groups] at hres
    | azureError m =>
      constructor
      · intro records hres
        simp [list_resource_groups] at hres
      · intro _
        refine ⟨by simp [list_resource_groups], ?_⟩
        refine ⟨⟨.error, "Failed to list resource groups"⟩, ?_, rfl⟩
        simp [list_resource_groups]
    | otherError m =>
      constructor
      · intro records hres
        simp [list_resource_groups] at hres
      · intro _
        refine ⟨by simp [list_resource_groups], ?_⟩
        refine ⟨⟨.error, "Failed to list resource groups"⟩, ?_, rfl⟩
        simp [list_resource_groups]
  · constructor
    · intro records hres
      have hrec : records = rgs.foldl
          (fun acc rg =>
            acc ++ [({ name := rg.name, location := rg.location,
                       tags := rg.tags.getD [] } : RGRecord)]) [] := by
        have : (list_resource_groups (.ok rgs)).result =
            .ok (some (rgs.foldl
              (fun acc rg =>
                acc ++ [({ name := rg.name, location := rg.location,
                           tags := rg.tags.getD [] } : RGRecord)]) [])) := rfl
        rw [this] at hres
        exact (Option.some.injEq _ _ ▸ (Except.ok.injEq _ _ ▸ hres)).symm
      constructor
      · simp [list_resource_groups]
      · intro hnil
        have hfold : rgs.foldl
            (fun acc rg =>
              acc ++ [({ name := rg.name, location := rg.location,
                         tags := rg.tags.getD [] } : RGRecord)]) [] = [] := by
          rw [← hrec]; exact hnil
        simp [list_resource_groups, hfold]
    · intro hres
      simp [list_resource_groups] at hres

/-- Witness for C5 at a concrete list invocation returning the empty
sequence. -/
theorem main_list_exit_status_witness :
    (main ⟨.list, "sub", none, "West Europe", "dev", "INFO"⟩
        ⟨none, .ok ⟨"rg1"⟩, .ok []⟩).result = .exitCode 0 ∧
    (main ⟨.list, "sub", none, "West Europe", "dev", "INFO"⟩
        ⟨none, .ok ⟨"rg1"⟩, .ok []⟩).logs =
      (list_resource_groups (.ok ([] : List ProviderGroup))).logs ++
        [⟨.info, "Resource Groups:"⟩] := by
  have h := (main_list_exit_status ⟨.list, "sub", none, "West Europe", "dev", "INFO"⟩
    ⟨none, .ok ⟨"rg1"⟩, .ok []⟩ rfl (by decide) rfl).1 [] rfl
  exact ⟨h.1, h.2 rfl⟩

/-- C7: the top-level guard of the entry point maps user interruption to
exit status 130 and any other failure that reaches it to a logged exit
status 1, whichever phase raised: facade construction, the create
operation (through which `KeyboardInterrupt` escapes), or the list
operation. -/
theorem main_top_level_guard (args : Args) (w : World)
    (hlvl : args.log_level ∈ logLevelChoices) :
    (w.armInit = some .keyboardInterrupt → (main args w).result = .exitCode 130) ∧
    (∀ m : String,
      (w.armInit = some (.azureError m) ∨ w.armInit = some (.otherError m)) →
      (main args w).result = .exitCode 1 ∧
      (⟨.error, s!"Unexpected error: {m}"⟩ : LogEntry) ∈ (main args w).logs) ∧
    (w.armInit = none → args.action = .create →
      pyTruthy args.resource_group = true →
      w.createResp = .error .keyboardInterrupt →
      (main args w).result = .exitCode 130) ∧
    (w.armInit = none → args.action = .list →
      w.listResp = .error .keyboardInterrupt →
      (main args w).result = .exitCode 130) := by
  obtain ⟨p, hp⟩ := setup_ok_of_mem _ hlvl initialRegistry
  refine ⟨?_, ?_, ?_, ?_⟩
  · intro hi
    unfold main mainBody
    rw [hp, hi]
  · intro m hm
    rcases hm with hi | hi <;>
      (unfold main mainBody; rw [hp, hi]; exact ⟨rfl, by simp⟩)
  · intro hinit hact hrg hcr
    unfold main mainBody
    rw [hp, hinit, hact, hcr]
    simp [hrg, create_resource_group]
  · intro hinit hact hl
    unfold main mainBody
    rw [hp, hinit, hact, hl]
    simp [list_resource_groups]

/-- Witness for C7: interruption during facade construction at a concrete
invocation exits 130. -/
theorem main_top_level_guard_witness :
    (main ⟨.create, "sub", some "rg1", "West Europe", "dev", "INFO"⟩
        ⟨some .keyboardInterrupt, .ok ⟨"rg1"⟩, .ok []⟩).result = .exitCode 130 :=
  (main_top_level_guard ⟨.create, "sub", some "rg1", "West Europe", "dev", "INFO"⟩
    ⟨some .keyboardInterrupt, .ok ⟨"rg1"⟩, .ok []⟩ (by decide)).1 rfl

end AzureManagement
